import Mathlib

/-!
Verification of the MediX frontend against its specification.

JavaScript strings are modelled as their sequences of UTF-16-style characters
(`List Char`); JavaScript string methods (`toLowerCase`, `includes`, `trim`,
`padStart`) are translated to structurally recursive Lean functions so that
every definition evaluates inside the kernel.  Stateful React components are
modelled by explicit state records and step functions; a network request that
a handler issues is modelled as an explicit observation value returned next to
the new state.
-/

namespace MediX

/-- JavaScript strings, modelled as lists of characters. -/
abbrev JSString := List Char

/-- Character list of a Lean string literal (used to write JS string literals). -/
def js (s : String) : JSString := s.toList

/-- JS `String.prototype.toLowerCase` (ASCII case mapping, as all inputs here are ASCII). -/
def toLowerCase (s : JSString) : JSString := s.map Char.toLower

/-- JS `String.prototype.includes`: the pattern occurs contiguously inside the receiver. -/
def includes (hay pat : JSString) : Bool := decide (pat <:+: hay)

/-- JS `String.prototype.trim`: strip leading and trailing whitespace. -/
def trim (s : JSString) : JSString :=
  ((s.dropWhile Char.isWhitespace).reverse.dropWhile Char.isWhitespace).reverse

/-- JS `Number.prototype.toString` for natural numbers (decimal digits). -/
def natToChars (n : Nat) : JSString := (toString n).toList

/-- JS `String.prototype.padStart(2, c0)` where `c0` is the zero character. -/
def padStart2 (s : JSString) : JSString := List.replicate (2 - s.length) '0' ++ s

/-- The apostrophe character (U+0027). -/
def apostrophe : Char := Char.ofNat 39

/-- JS `<` on strings: lexicographic comparison of character sequences. -/
def jsLtChars : JSString → JSString → Bool
  | [], [] => false
  | [], _ :: _ => true
  | _ :: _, [] => false
  | a :: as, b :: bs => if a < b then true else if b < a then false else jsLtChars as bs

/-! ### Emergency keyword triage (SymptomChat.jsx / constants.js) -/

/-- The fixed 12-element `EMERGENCY_KEYWORDS` list from `constants.js`, identical to the
local `emergencyKeywords` list inside `containsEmergencyKeywords` in `SymptomChat.jsx`. -/
def emergencyKeywords : List JSString :=
  [js "chest pain", js "difficulty breathing", js "severe pain", js "bleeding heavily",
   js "unconscious", js "stroke", js "heart attack", js "suicide", js "overdose",
   js "severe headache", js "high fever", js "can" ++ [apostrophe] ++ js "t breathe"]

/-- `containsEmergencyKeywords` from `SymptomChat.jsx`:
`emergencyKeywords.some (keyword => message.toLowerCase().includes(keyword))`. -/
def containsEmergencyKeywords (message : JSString) : Bool :=
  emergencyKeywords.any fun keyword => includes (toLowerCase message) keyword

/-! ### Users, appointments and the appointment-list actions (AppointmentList in README) -/

/-- The `user_type` of a logged-in user. -/
inductive UserType
  | patient
  | doctor
deriving DecidableEq, Fintype

/-- The authenticated user object returned by the backend. -/
structure UserData where
  full_name : JSString
  user_type : UserType
deriving DecidableEq

/-- Appointment status values (`APPOINTMENT_STATUS` in `constants.js`). -/
inductive AppointmentStatus
  | scheduled
  | completed
  | cancelled
deriving DecidableEq, Fintype

/-- The status-changing actions the appointment list can offer. -/
inductive StatusAction
  | complete
  | cancel
deriving DecidableEq, Fintype

/-- The status that `updateAppointmentStatus` is invoked with by each button. -/
def actionTargetStatus : StatusAction → AppointmentStatus
  | .complete => .completed
  | .cancel => .cancelled

/-- An appointment as rendered by the appointment list (only the field the
action-rendering logic inspects). -/
structure Appointment where
  status : AppointmentStatus
deriving DecidableEq, Fintype

/-- The status-changing actions rendered for one appointment card in `AppointmentList`:
the action block exists only under `appointment.status === 'scheduled'`; inside it the
Complete button is rendered only for `user?.user_type === 'doctor'` and the Cancel
button is always rendered. -/
def offeredStatusActions (userType : UserType) (a : Appointment) : List StatusAction :=
  match a.status with
  | .scheduled =>
      (match userType with
       | .doctor => [StatusAction.complete]
       | .patient => []) ++ [StatusAction.cancel]
  | _ => []

/-! ### Appointment booking slots and dates (BookAppointment.jsx) -/

/-- `generateTimeSlots` from `BookAppointment.jsx`: for `hour = 9; hour <= 17; hour++`
and `minute = 0; minute < 60; minute += 30`, push `{hour}:{minute}` with both parts
zero-padded to two characters. -/
def generateTimeSlots : List JSString :=
  (List.range' 9 9 1).flatMap fun hour =>
    (List.range' 0 2 30).map fun minute =>
      padStart2 (natToChars hour) ++ js ":" ++ padStart2 (natToChars minute)

/-- `getMinDate` from `BookAppointment.jsx`, at day granularity: tomorrow. -/
def getMinDate (today : Nat) : Nat := today + 1

/-- `getMaxDate` from `BookAppointment.jsx`, at day granularity: 30 days from now. -/
def getMaxDate (today : Nat) : Nat := today + 30

/-- Checks that adjacent elements of a list are strictly ascending in the JS
string order. -/
def ascendingChain : List JSString → Bool
  | [] => true
  | [_] => true
  | a :: b :: rest => jsLtChars a b && ascendingChain (b :: rest)

/-- The slot list asserted by the claim, written from the claim's own words for
comparison: exactly the `:00` and `:30` times lying within the range 09:00-17:00,
in ascending order (so the last one is 17:00). -/
def claimTimeSlots : List JSString :=
  ((List.range' 9 8 1).flatMap fun hour =>
    [padStart2 (natToChars hour) ++ js ":00", padStart2 (natToChars hour) ++ js ":30"])
  ++ [js "17:00"]

/-! ### Image selection and disease-detection dispatch (ImageDetection.jsx) -/

/-- A file chosen in the image picker: its byte size and the data URL that
`FileReader.readAsDataURL` would produce for it. -/
structure ImageFile where
  size : Nat
  dataURL : JSString
deriving DecidableEq

/-- The component state touched by `handleImageSelect`. -/
structure ImageSelectState where
  selectedImage : Option JSString
  imagePreview : Option JSString
deriving DecidableEq

/-- Result of one `handleImageSelect` call: the new component state, the error toast
shown (if any), and whether the file was read (`FileReader.readAsDataURL` invoked). -/
structure ImageSelectOutcome where
  state : ImageSelectState
  errorToast : Option JSString
  fileRead : Bool
deriving DecidableEq

/-- `handleImageSelect` from `ImageDetection.jsx`: no-op without a file; reject files
over `10 * 1024 * 1024` bytes with a toast and no read; otherwise read the file and
store its data URL as both the selected image and the preview. -/
def handleImageSelect (st : ImageSelectState) (file : Option ImageFile) : ImageSelectOutcome :=
  match file with
  | none => ⟨st, none, false⟩
  | some f =>
      if f.size > 10 * 1024 * 1024 then
        ⟨st, some (js "Image size should be less than 10MB"), false⟩
      else
        ⟨⟨some f.dataURL, some f.dataURL⟩, none, true⟩

/-- The JSON body posted to `/disease/detect`. -/
structure DetectBody where
  disease_type : JSString
  image_base64 : JSString
  symptoms : Option JSString
deriving DecidableEq

/-- What one `handleDetection` call does at its boundary: either show an error toast
and stop, or issue the POST with a body. -/
inductive DetectDispatch
  | errToast (msg : JSString)
  | request (body : DetectBody)
deriving DecidableEq

/-- `handleDetection` from `ImageDetection.jsx`, up to the point the request is issued.
Guards: falsy `selectedModel` (the empty string) and missing `selectedImage` each toast
and return.  On the request path `setResults(null)` runs and the body is
`{disease_type, image_base64, symptoms: symptoms.trim() || null}`.  The second
component is the `results` state after the call dispatches. -/
def handleDetection (selectedModel : JSString) (selectedImage : Option JSString)
    (symptoms : JSString) (results : Option JSString) : DetectDispatch × Option JSString :=
  if selectedModel = [] then (.errToast (js "Please select a disease type"), results)
  else
    match selectedImage with
    | none => (.errToast (js "Please upload an image"), results)
    | some img =>
        (.request
           { disease_type := selectedModel, image_base64 := img,
             symptoms := if trim symptoms = [] then none else some (trim symptoms) },
         none)

/-! ### Authentication context (AuthContext.jsx) -/

/-- The auth-relevant client state: `localStorage['medix_token']`, the axios default
`Authorization` header, and the React `user` state. -/
structure AuthState where
  storedToken : Option JSString
  authHeader : Option JSString
  user : Option UserData
deriving DecidableEq

/-- A failed axios call, as consumed by the catch blocks: the optional
`error.response?.data?.detail` string. -/
structure ApiFailure where
  detail : Option JSString
deriving DecidableEq

/-- A successful auth response: `{access_token, user}`. -/
structure AuthOk where
  access_token : JSString
  user : UserData
deriving DecidableEq

/-- The structured value `login`/`signup` return to their caller. -/
structure AuthResult where
  success : Bool
  error : Option JSString
deriving DecidableEq

/-- JS `a || dflt` for an optional string `a`: the default is used when `a` is
absent or empty (the empty string is falsy). -/
def jsOrDefault (s : Option JSString) (dflt : JSString) : JSString :=
  match s with
  | some d => if d = [] then dflt else d
  | none => dflt

/-- `login` from `AuthContext.jsx`: on success store the token, install the
`Bearer` header, set the user and return `{success: true}`; on failure return
`{success: false, error}` with the message `error.response?.data?.detail || 'Login failed'`
and touch no state. -/
def login (st : AuthState) (resp : Except ApiFailure AuthOk) : AuthState × AuthResult :=
  match resp with
  | .ok r =>
      ({ storedToken := some r.access_token,
         authHeader := some (js "Bearer " ++ r.access_token),
         user := some r.user },
       { success := true, error := none })
  | .error e =>
      (st, { success := false, error := some (jsOrDefault e.detail (js "Login failed")) })

/-- `signup` from `AuthContext.jsx`: identical to `login` except for the endpoint and
the default failure message `'Signup failed'`. -/
def signup (st : AuthState) (resp : Except ApiFailure AuthOk) : AuthState × AuthResult :=
  match resp with
  | .ok r =>
      ({ storedToken := some r.access_token,
         authHeader := some (js "Bearer " ++ r.access_token),
         user := some r.user },
       { success := true, error := none })
  | .error e =>
      (st, { success := false, error := some (jsOrDefault e.detail (js "Signup failed")) })

/-- `logout` from `AuthContext.jsx`: remove the stored token, delete the header,
clear the user. -/
def logout (_st : AuthState) : AuthState :=
  { storedToken := none, authHeader := none, user := none }

/-- `checkAuthStatus` from `AuthContext.jsx`: with no stored token nothing happens;
with a stored token the header is installed and `/auth/me` is consulted — on success
the user is set, on failure the catch block removes the stored token and deletes the
header (the user state is not touched). -/
def checkAuthStatus (st : AuthState) (meResp : Except ApiFailure UserData) : AuthState :=
  match st.storedToken with
  | none => st
  | some token =>
      match meResp with
      | .ok u => { st with authHeader := some (js "Bearer " ++ token), user := some u }
      | .error _ => { st with storedToken := none, authHeader := none }

/-! ### Route guards (App.jsx) -/

/-- What a route guard renders. -/
inductive RouteView
  | spinner
  | child
  | navigate (dest : JSString)
deriving DecidableEq

/-- `ProtectedRoute` from `App.jsx`: spinner while loading, the child when a user is
present, otherwise a navigation to `/login`. -/
def protectedRoute (loading : Bool) (user : Option UserData) : RouteView :=
  if loading then .spinner
  else
    match user with
    | some _ => .child
    | none => .navigate (js "/login")

/-- `PublicRoute` from `App.jsx`: spinner while loading, a navigation to `/dashboard`
when a user is present, otherwise the child. -/
def publicRoute (loading : Bool) (user : Option UserData) : RouteView :=
  if loading then .spinner
  else
    match user with
    | some _ => .navigate (js "/dashboard")
    | none => .child

/-! ### Symptom chat (SymptomChat.jsx) -/

/-- One entry of the chat transcript (`type` is 'user' or 'assistant'). -/
structure ChatMessage where
  mtype : JSString
  content : JSString
deriving DecidableEq

/-- The chat component state touched by `sendMessage` and `startNewChat`. -/
structure ChatState where
  messages : List ChatMessage
  sessionId : Option Nat
deriving DecidableEq

/-- A request the chat posts to a chat endpoint: `startReq` is a POST to
`/chat/start` (recording which `session_id`, if any, the server returned),
`continReq` is a POST to `/chat/continue` carrying the given `session_id`. -/
inductive ChatObs
  | startReq (message : JSString) (returnedSession : Option Nat)
  | continReq (message : JSString) (sessionId : Nat)
deriving DecidableEq

/-- The canned assistant reply appended by the catch block of `sendMessage`. -/
def chatErrorReply : JSString :=
  js "I apologize, but I" ++ [apostrophe] ++
  js "m having trouble responding right now. Please try again in a moment, or if you have urgent medical concerns, please contact a healthcare professional immediately."

/-- The welcome message installed by the mount effect of `SymptomChat`. -/
def welcomeMessage (name : JSString) : JSString :=
  js "Hello " ++ name ++ js "! I" ++ [apostrophe] ++
  js "m your AI medical assistant. I" ++ [apostrophe] ++
  js "m here to help you understand your symptoms and provide medical guidance. Please describe what you" ++
  [apostrophe] ++
  js "re experiencing, and I" ++ [apostrophe] ++
  js "ll do my best to assist you.\n\nRemember: I provide information and guidance, but I" ++
  [apostrophe] ++
  js "m not a replacement for professional medical care. If you have severe symptoms or concerns, please consult with a healthcare professional."

/-- The message installed by `startNewChat`. -/
def welcomeAgainMessage : JSString :=
  js "Hello again! I" ++ [apostrophe] ++
  js "m ready to help with any new symptoms or concerns you might have. What can I assist you with today?"

/-- The chat state after the mount effect runs: the welcome message and a null
session id. -/
def initialChatState (name : JSString) : ChatState :=
  { messages := [⟨js "assistant", welcomeMessage name⟩], sessionId := none }

/-- `startNewChat` from `SymptomChat.jsx`: reset the transcript to the welcome-back
message and the session id to null. -/
def startNewChat : ChatState :=
  { messages := [⟨js "assistant", welcomeAgainMessage⟩], sessionId := none }

/-- `sendMessage` from `SymptomChat.jsx` for one call.  `res` is the outcome of the
awaited POST: `some (reply, sid)` for a successful response (`reply` the assistant
text, `sid` the `session_id` field), `none` when the request fails.  Returns the new
state together with the chat request that was issued.  An empty or whitespace-only
input returns immediately.  With a recorded session id the message goes to
`/chat/continue` with that id (which is left unchanged); otherwise it goes to
`/chat/start` and a successful response's `session_id` is recorded.  On failure the
canned apology is appended and the session id is left as it was. -/
def sendMessage (st : ChatState) (input : JSString) (res : Option (JSString × Nat)) :
    ChatState × List ChatObs :=
  if trim input = [] then (st, [])
  else
    let afterUser := st.messages ++ [ChatMessage.mk (js "user") input]
    match st.sessionId with
    | some sid =>
        match res with
        | some p =>
            ({ messages := afterUser ++ [⟨js "assistant", p.1⟩], sessionId := some sid },
             [ChatObs.continReq input sid])
        | none =>
            ({ messages := afterUser ++ [⟨js "assistant", chatErrorReply⟩], sessionId := some sid },
             [ChatObs.continReq input sid])
    | none =>
        match res with
        | some p =>
            ({ messages := afterUser ++ [⟨js "assistant", p.1⟩], sessionId := some p.2 },
             [ChatObs.startReq input (some p.2)])
        | none =>
            ({ messages := afterUser ++ [⟨js "assistant", chatErrorReply⟩], sessionId := none },
             [ChatObs.startReq input none])

/-- One user interaction with the chat component: typing a message and pressing send
(with the network outcome of the resulting POST), or clicking the New Chat button. -/
inductive ChatEvent
  | send (text : JSString) (res : Option (JSString × Nat))
  | newChatClick
deriving DecidableEq

/-- The state transition and emitted chat requests of one interaction. -/
def chatEventStep (st : ChatState) (ev : ChatEvent) : ChatState × List ChatObs :=
  match ev with
  | .send t res => sendMessage st t res
  | .newChatClick => (startNewChat, [])

/-- Run a sequence of interactions, collecting every chat request in order. -/
def chatRun (st : ChatState) : List ChatEvent → ChatState × List ChatObs
  | [] => (st, [])
  | ev :: evs =>
      let p := chatEventStep st ev
      let q := chatRun p.1 evs
      (q.1, p.2 ++ q.2)

/-- The `disabled` attribute of the send button:
`loading || !inputMessage.trim()`. -/
def sendDisabled (loading : Bool) (inputMessage : JSString) : Bool :=
  loading || (trim inputMessage == [])

/-! ## Helper lemmas -/

/-- Unfolding of `chatRun` on a cons cell. -/
theorem chatRun_cons (st : ChatState) (ev : ChatEvent) (evs : List ChatEvent) :
    chatRun st (ev :: evs) =
      ((chatRun (chatEventStep st ev).1 evs).1,
        (chatEventStep st ev).2 ++ (chatRun (chatEventStep st ev).1 evs).2) := rfl

/-- A non-empty message sent with no recorded session id issues a `/chat/start`
request; a successful response's session id is recorded, a failed one leaves the
session id null. -/
theorem sendMessage_start_obs (st : ChatState) (input : JSString)
    (res : Option (JSString × Nat)) (h1 : st.sessionId = none) (h2 : trim input ≠ []) :
    (sendMessage st input res).2 = [ChatObs.startReq input (Option.map Prod.snd res)] ∧
    (sendMessage st input res).1.sessionId = Option.map Prod.snd res := by
  cases res with
  | none => simp [sendMessage, h1, h2]
  | some p => simp [sendMessage, h1, h2]

/-- A non-empty message sent while a session id is recorded issues a
`/chat/continue` request carrying exactly that id, and the id is unchanged. -/
theorem sendMessage_contin_obs (st : ChatState) (input : JSString)
    (res : Option (JSString × Nat)) (sid : Nat) (h1 : st.sessionId = some sid)
    (h2 : trim input ≠ []) :
    (sendMessage st input res).2 = [ChatObs.continReq input sid] ∧
    (sendMessage st input res).1.sessionId = some sid := by
  cases res with
  | none => simp [sendMessage, h1, h2]
  | some p => simp [sendMessage, h1, h2]

/-- Every `/chat/continue` request in a run carries either the session id the run
started with or one returned by an earlier `/chat/start` request of the same run. -/
theorem chatRun_continReq_prior_start (evs : List ChatEvent) :
    ∀ (st : ChatState) (pre post : List ChatObs) (m : JSString) (sid : Nat),
      (chatRun st evs).2 = pre ++ ChatObs.continReq m sid :: post →
      st.sessionId = some sid ∨ ∃ m2, ChatObs.startReq m2 (some sid) ∈ pre := by
  induction evs with
  | nil =>
      intro st pre post m sid h
      simp [chatRun] at h
  | cons ev evs ih =>
      intro st pre post m sid h
      rw [chatRun_cons] at h
      cases ev with
      | newChatClick =>
          simp only [chatEventStep, List.nil_append] at h
          rcases ih startNewChat pre post m sid h with h1 | h2
          · exact absurd h1 (by simp [startNewChat])
          · exact Or.inr h2
      | send t res =>
          simp only [chatEventStep] at h
          by_cases ht : trim t = []
          · rw [show sendMessage st t res = (st, []) from by simp [sendMessage, ht]] at h
            simpa using ih st pre post m sid (by simpa using h)
          · cases hs : st.sessionId with
            | some sid0 =>
                obtain ⟨hobs, hsid⟩ := sendMessage_contin_obs st t res sid0 hs ht
                rw [hobs] at h
                cases pre with
                | nil =>
                    simp only [List.nil_append, List.cons_append, List.cons.injEq] at h
                    obtain ⟨h1, _⟩ := h
                    obtain ⟨_, h3⟩ := ChatObs.continReq.inj h1
                    exact Or.inl (by rw [h3])
                | cons a pre' =>
                    simp only [List.cons_append, List.cons.injEq] at h
                    obtain ⟨_, h4⟩ := h
                    rcases ih (sendMessage st t res).1 pre' post m sid h4 with h5 | ⟨m2, h6⟩
                    · rw [hsid] at h5
                      exact Or.inl h5
                    · exact Or.inr ⟨m2, List.mem_cons_of_mem _ h6⟩
            | none =>
                obtain ⟨hobs, hsid⟩ := sendMessage_start_obs st t res hs ht
                rw [hobs] at h
                cases pre with
                | nil =>
                    simp only [List.nil_append, List.cons_append, List.cons.injEq] at h
                    exact absurd h.1 (by simp)
                | cons a pre' =>
                    simp only [List.cons_append, List.cons.injEq] at h
                    obtain ⟨h3, h4⟩ := h
                    rcases ih (sendMessage st t res).1 pre' post m sid h4 with h5 | ⟨m2, h6⟩
                    · rw [hsid] at h5
                      refine Or.inr ⟨t, ?_⟩
                      rw [← h3, ← h5]
                      exact List.mem_cons_self _ _
                    · exact Or.inr ⟨m2, List.mem_cons_of_mem _ h6⟩

/-- The request issued on the happy path of `handleDetection`. -/
theorem handleDetection_pos (model img symptoms : JSString) (results : Option JSString)
    (hm : model ≠ []) :
    handleDetection model (some img) symptoms results =
      (.request ⟨model, img, if trim symptoms = [] then none else some (trim symptoms)⟩,
       none) := by
  simp [handleDetection, hm]

/-! ## Claim theorems -/

/-- Claim C1: `containsEmergencyKeywords` returns true exactly when the lower-cased
input contains at least one keyword of the fixed 12-element emergency list as a
substring; in particular it is true for "I have chest pain", false for
"mild headache", and true for "no chest pain" (the documented negation-blind false
positive). -/
theorem C1_containsEmergencyKeywords_spec :
    (∀ s : JSString, containsEmergencyKeywords s = true ↔
        ∃ k ∈ emergencyKeywords, k <:+: toLowerCase s) ∧
    containsEmergencyKeywords (js "I have chest pain") = true ∧
    containsEmergencyKeywords (js "mild headache") = false ∧
    containsEmergencyKeywords (js "no chest pain") = true := by
  refine ⟨fun s => ?_, by decide, by decide, by decide⟩
  simp [containsEmergencyKeywords, includes, List.any_eq_true]

/-- Claim C2: a status-changing action is offered only for a `scheduled` appointment,
the Complete action only to a doctor, the Cancel action to both patient and doctor
whenever the appointment is `scheduled`, and no action at all is offered for a
`completed` or `cancelled` appointment, so the UI never initiates a transition out of
a terminal state. -/
theorem C2_status_actions_guarded :
    (∀ (ut : UserType) (a : Appointment) (act : StatusAction),
        act ∈ offeredStatusActions ut a → a.status = AppointmentStatus.scheduled) ∧
    (∀ (ut : UserType) (a : Appointment),
        StatusAction.complete ∈ offeredStatusActions ut a → ut = UserType.doctor) ∧
    (∀ a : Appointment, a.status = AppointmentStatus.scheduled →
        StatusAction.cancel ∈ offeredStatusActions UserType.patient a ∧
        StatusAction.cancel ∈ offeredStatusActions UserType.doctor a) ∧
    (∀ (ut : UserType) (a : Appointment), a.status ≠ AppointmentStatus.scheduled →
        offeredStatusActions ut a = []) := by
  decide

/-- Witness for C2 at concrete inputs: a scheduled appointment offers Cancel to a
patient, and a completed appointment offers nothing to a doctor. -/
theorem C2_status_actions_guarded_witness :
    StatusAction.cancel ∈
      offeredStatusActions UserType.patient ⟨AppointmentStatus.scheduled⟩ ∧
    offeredStatusActions UserType.doctor ⟨AppointmentStatus.completed⟩ = [] :=
  ⟨(C2_status_actions_guarded.2.2.1 ⟨AppointmentStatus.scheduled⟩ rfl).1,
   C2_status_actions_guarded.2.2.2 UserType.doctor ⟨AppointmentStatus.completed⟩ (by decide)⟩

/-- Claim C3 counterexample: `generateTimeSlots` also returns `"17:30"`, a time that
does not lie within the claimed range 09:00-17:00, so the returned list is not the
list of `:00`/`:30` times within that range. -/
theorem C3_timeSlots_counterexample :
    js "17:30" ∈ generateTimeSlots ∧ generateTimeSlots ≠ claimTimeSlots := by
  decide

/-- Claim C3 (amended): `generateTimeSlots` deterministically returns the `:00` and
`:30` times of every hour from 9 through 17 inclusive — the 18 slots 09:00 through
17:30 — in ascending order, and the selectable appointment date ranges from the day
after the current date through 30 days after it. -/
theorem C3_timeSlots_amended :
    generateTimeSlots = [js "09:00", js "09:30", js "10:00", js "10:30", js "11:00",
      js "11:30", js "12:00", js "12:30", js "13:00", js "13:30", js "14:00",
      js "14:30", js "15:00", js "15:30", js "16:00", js "16:30", js "17:00",
      js "17:30"] ∧
    ascendingChain generateTimeSlots = true ∧
    (∀ today : Nat, getMinDate today = today + 1 ∧ getMaxDate today = today + 30) :=
  ⟨by decide, by decide, fun _ => ⟨rfl, rfl⟩⟩

/-- Claim C4: a file over 10 MB is rejected with an error toast, leaving the
previously selected image and preview unchanged and reading nothing; a file of at
most 10 MB is read and its data URL becomes both the selected image and the
preview. -/
theorem C4_image_size_guard :
    (∀ (st : ImageSelectState) (f : ImageFile), f.size > 10 * 1024 * 1024 →
        handleImageSelect st (some f) =
          ⟨st, some (js "Image size should be less than 10MB"), false⟩) ∧
    (∀ (st : ImageSelectState) (f : ImageFile), f.size ≤ 10 * 1024 * 1024 →
        handleImageSelect st (some f) =
          ⟨⟨some f.dataURL, some f.dataURL⟩, none, true⟩) := by
  constructor
  · intro st f h
    simp [handleImageSelect, h]
  · intro st f h
    simp [handleImageSelect, Nat.not_lt.mpr h]

/-- Witness for C4 at concrete inputs: a 10 MB + 1 byte file is rejected without
touching the state, and a small file is read into both state fields. -/
theorem C4_image_size_guard_witness :
    handleImageSelect ⟨some (js "old"), some (js "old")⟩ (some ⟨10485761, js "big"⟩) =
      ⟨⟨some (js "old"), some (js "old")⟩,
       some (js "Image size should be less than 10MB"), false⟩ ∧
    handleImageSelect ⟨none, none⟩ (some ⟨5, js "ok"⟩) =
      ⟨⟨some (js "ok"), some (js "ok")⟩, none, true⟩ :=
  ⟨C4_image_size_guard.1 _ _ (by decide), C4_image_size_guard.2 _ _ (by decide)⟩

/-- Claim C5: `handleDetection` posts to `/disease/detect` exactly when both a
disease type and an image are selected; a missing one produces an error toast, no
request, and unchanged results; the request body carries the disease type, the
base64 image, and the symptoms normalized so that empty or whitespace-only text is
sent as null. -/
theorem C5_handleDetection_spec :
    (∀ (img : Option JSString) (symptoms : JSString) (results : Option JSString),
        handleDetection [] img symptoms results =
          (.errToast (js "Please select a disease type"), results)) ∧
    (∀ (model symptoms : JSString) (results : Option JSString), model ≠ [] →
        handleDetection model none symptoms results =
          (.errToast (js "Please upload an image"), results)) ∧
    (∀ (model img symptoms : JSString) (results : Option JSString), model ≠ [] →
        handleDetection model (some img) symptoms results =
          (.request ⟨model, img,
             if trim symptoms = [] then none else some (trim symptoms)⟩, none)) ∧
    (∀ (model : JSString) (img : Option JSString) (symptoms : JSString)
        (results resultsAfter : Option JSString) (body : DetectBody),
        handleDetection model img symptoms results = (.request body, resultsAfter) →
        model ≠ [] ∧ img = some body.image_base64 ∧ body.disease_type = model ∧
        resultsAfter = none ∧ (trim symptoms = [] → body.symptoms = none)) := by
  refine ⟨fun img symptoms results => by simp [handleDetection],
          fun model symptoms results hm => by simp [handleDetection, hm],
          fun model img symptoms results hm => handleDetection_pos _ _ _ _ hm,
          ?_⟩
  intro model img symptoms results resultsAfter body hEq
  by_cases hm : model = []
  · rw [hm] at hEq
    simp [handleDetection] at hEq
  · cases img with
    | none => simp [handleDetection, hm] at hEq
    | some i =>
        rw [handleDetection_pos _ _ _ _ hm] at hEq
        obtain ⟨h1, h2⟩ := Prod.mk.inj hEq
        obtain h3 := DetectDispatch.request.inj h1
        subst h3
        exact ⟨hm, rfl, rfl, h2.symm, fun hts => by simp [hts]⟩

/-- Witness for C5 at concrete inputs: with a selected model and image and
whitespace-only symptom text, the request is issued with `symptoms` null and the
results state cleared. -/
theorem C5_handleDetection_spec_witness :
    handleDetection (js "skin") (some (js "img64")) (js "   ") (some (js "old")) =
      (DetectDispatch.request ⟨js "skin", js "img64", none⟩, none) :=
  (C5_handleDetection_spec.2.2.1 (js "skin") (js "img64") (js "   ")
    (some (js "old")) (by decide)).trans (by decide)

/-- Claim C6: the first message of a conversation goes to `/chat/start` (no session
id) and the returned session id is recorded; every message sent while a session id
is recorded goes to `/chat/continue` carrying exactly that id; starting a new chat
resets the session id to null; and in every run from the initial state, a
`/chat/continue` request carries a session id returned by a prior `/chat/start`
request. -/
theorem C6_chat_session_protocol :
    (∀ (st : ChatState) (t r : JSString) (n : Nat),
        st.sessionId = none → trim t ≠ [] →
        (sendMessage st t (some (r, n))).2 = [ChatObs.startReq t (some n)] ∧
        (sendMessage st t (some (r, n))).1.sessionId = some n) ∧
    (∀ (st : ChatState) (t : JSString) (res : Option (JSString × Nat)) (sid : Nat),
        st.sessionId = some sid → trim t ≠ [] →
        (sendMessage st t res).2 = [ChatObs.continReq t sid] ∧
        (sendMessage st t res).1.sessionId = some sid) ∧
    startNewChat.sessionId = none ∧
    (∀ (name : JSString) (evs : List ChatEvent) (pre post : List ChatObs)
        (m : JSString) (sid : Nat),
        (chatRun (initialChatState name) evs).2 = pre ++ ChatObs.continReq m sid :: post →
        ∃ m2, ChatObs.startReq m2 (some sid) ∈ pre) := by
  refine ⟨?_, ?_, rfl, ?_⟩
  · intro st t r n h1 h2
    simpa using sendMessage_start_obs st t (some (r, n)) h1 h2
  · intro st t res sid h1 h2
    exact sendMessage_contin_obs st t res sid h1 h2
  · intro name evs pre post m sid h
    rcases chatRun_continReq_prior_start evs (initialChatState name) pre post m sid h
      with h1 | h2
    · exact absurd h1 (by simp [initialChatState])
    · exact h2

/-- Witness for C6 at a concrete two-message trace: the continue request's session
id 7 is found in a prior start request. -/
theorem C6_chat_session_protocol_witness :
    ∃ m2, ChatObs.startReq m2 (some 7) ∈ [ChatObs.startReq (js "hello doctor") (some 7)] :=
  C6_chat_session_protocol.2.2.2 (js "Ada")
    [ChatEvent.send (js "hello doctor") (some (js "hi", 7)),
     ChatEvent.send (js "it still hurts") (some (js "ok", 7))]
    [ChatObs.startReq (js "hello doctor") (some 7)] [] (js "it still hurts") 7
    (by decide)

/-- Claim C7: a successful login or signup stores the access token, installs the
default Authorization header `Bearer <token>` (carried by every subsequent request)
and sets the user; logout removes the stored token and the header and clears the
user; a failed `/auth/me` verification removes the stored token and the header. -/
theorem C7_bearer_token_lifecycle :
    (∀ (st : AuthState) (r : AuthOk),
        login st (.ok r) =
          (⟨some r.access_token, some (js "Bearer " ++ r.access_token), some r.user⟩,
           ⟨true, none⟩)) ∧
    (∀ (st : AuthState) (r : AuthOk),
        signup st (.ok r) =
          (⟨some r.access_token, some (js "Bearer " ++ r.access_token), some r.user⟩,
           ⟨true, none⟩)) ∧
    (∀ st : AuthState, logout st = ⟨none, none, none⟩) ∧
    (∀ (st : AuthState) (tok : JSString) (e : ApiFailure),
        checkAuthStatus { st with storedToken := some tok } (.error e) =
          ⟨none, none, st.user⟩) :=
  ⟨fun _ _ => rfl, fun _ _ => rfl, fun _ => rfl, fun _ _ _ => rfl⟩

/-- Claim C8 counterexample: with a present but empty `detail` string the failure
message is the fixed default, not the detail — JS `||` also replaces an empty
string — so "message taken from the detail when present" fails at `detail = ""`. -/
theorem C8_empty_detail_counterexample :
    (login ⟨none, none, none⟩ (Except.error ⟨some []⟩)).2.error ≠ some [] ∧
    (login ⟨none, none, none⟩ (Except.error ⟨some []⟩)).2.error =
      some (js "Login failed") := by
  decide

/-- Claim C8 (amended): a failed login or signup returns
`{success: false, error: message}` where the message is the server detail when that
is present and non-empty and otherwise the fixed default (`'Login failed'` /
`'Signup failed'`, also for an empty-string detail), and no state is mutated on the
failure path. -/
theorem C8_failure_structured_amended :
    (∀ (st : AuthState) (e : ApiFailure),
        login st (.error e) =
          (st, ⟨false, some (jsOrDefault e.detail (js "Login failed"))⟩)) ∧
    (∀ (st : AuthState) (e : ApiFailure),
        signup st (.error e) =
          (st, ⟨false, some (jsOrDefault e.detail (js "Signup failed"))⟩)) ∧
    (∀ (d dflt : JSString), d ≠ [] → jsOrDefault (some d) dflt = d) ∧
    (∀ dflt : JSString, jsOrDefault none dflt = dflt ∧ jsOrDefault (some []) dflt = dflt) := by
  refine ⟨fun st e => rfl, fun st e => rfl, ?_, fun dflt => ⟨rfl, rfl⟩⟩
  intro d dflt h
  simp [jsOrDefault, h]

/-- Witness for C8 (amended) at concrete inputs: a non-empty detail is surfaced
verbatim, and an absent detail yields the default with the state unchanged. -/
theorem C8_failure_structured_amended_witness :
    jsOrDefault (some (js "Invalid credentials")) (js "Login failed") =
      js "Invalid credentials" ∧
    login ⟨none, none, none⟩ (Except.error ⟨none⟩) =
      (⟨none, none, none⟩, ⟨false, some (js "Login failed")⟩) :=
  ⟨C8_failure_structured_amended.2.2.1 _ _ (by decide),
   (C8_failure_structured_amended.1 ⟨none, none, none⟩ ⟨none⟩).trans (by decide)⟩

/-- Claim C9: once loading has finished, a ProtectedRoute renders its child exactly
when a user is present and otherwise navigates to `/login`; a PublicRoute renders
its child exactly when no user is present and otherwise navigates to `/dashboard`;
while loading both render only a spinner; hence protected content is never rendered
without a user. -/
theorem C9_route_guards :
    (∀ u : UserData, protectedRoute false (some u) = RouteView.child) ∧
    protectedRoute false none = RouteView.navigate (js "/login") ∧
    (∀ u : UserData, publicRoute false (some u) = RouteView.navigate (js "/dashboard")) ∧
    publicRoute false none = RouteView.child ∧
    (∀ u : Option UserData,
        protectedRoute true u = RouteView.spinner ∧ publicRoute true u = RouteView.spinner) ∧
    (∀ (loading : Bool) (u : Option UserData),
        protectedRoute loading u = RouteView.child → loading = false ∧ u ≠ none) := by
  refine ⟨fun u => rfl, rfl, fun u => rfl, rfl, fun u => ⟨rfl, rfl⟩, ?_⟩
  intro l u h
  cases l
  · cases u with
    | none => simp [protectedRoute] at h
    | some v => exact ⟨rfl, by simp⟩
  · simp [protectedRoute] at h

/-- Witness for C9 at a concrete input: rendering the child at a present user
implies loading is over and the user is not absent. -/
theorem C9_route_guards_witness :
    false = false ∧ (some ⟨js "Ada", UserType.patient⟩ : Option UserData) ≠ none :=
  C9_route_guards.2.2.2.2.2 false (some ⟨js "Ada", UserType.patient⟩) rfl

/-- Claim C10: sending an empty or whitespace-only chat message is a no-op — the
state (transcript and session id) is unchanged and no request is issued — and the
send button is disabled for such input. -/
theorem C10_empty_message_noop :
    (∀ (st : ChatState) (input : JSString) (res : Option (JSString × Nat)),
        trim input = [] → sendMessage st input res = (st, [])) ∧
    (∀ (loading : Bool) (input : JSString),
        trim input = [] → sendDisabled loading input = true) := by
  constructor
  · intro st input res h
    simp [sendMessage, h]
  · intro l input h
    simp [sendDisabled, h]

/-- Witness for C10 at a concrete whitespace-only input. -/
theorem C10_empty_message_noop_witness :
    sendMessage ⟨[], none⟩ (js "   ") none = (⟨[], none⟩, []) ∧
    sendDisabled false (js "   ") = true :=
  ⟨C10_empty_message_noop.1 ⟨[], none⟩ (js "   ") none (by decide),
   C10_empty_message_noop.2 false (js "   ") (by decide)⟩

end MediX
